import Mathlib

/-!
Verification development for check-aws-cloudwatch-logs-insights.

The definitions below are a shallow embedding of lib/app.go of the
plugin (the revision whose options struct carries Filter / ReturnMessage
and whose state struct carries QueryStartedAt): the threshold checker
buildChecker, the query-string builder fullQuery, the StartQuery input
construction, the GetQueryResults classifier parseResult, the window
planning prologue of searchLogs, and the poll loop of searchLogs with
its state persistence.  File and network IO are abstracted: the result
of loadState is an explicit input (LoadResult), the backend responses
consumed by the poll loop are an explicit event list (PollEvent), and
saveState is recorded by counting its invocations and remembering the
state it was given.  Machine integers are modelled as Int (unix
seconds and counts stay far from the 64-bit range in every statement
below); the float64 RecordsMatched statistic is modelled as an integer
count, which is exact for every record count the backend reports.
-/

/-- Status strings of the CloudWatch Logs Insights API (aws-sdk-go
cloudwatchlogs constants). -/
def QueryStatusComplete : String := "Complete"

def QueryStatusFailed : String := "Failed"

def QueryStatusCancelled : String := "Cancelled"

def QueryStatusScheduled : String := "Scheduled"

def QueryStatusRunning : String := "Running"

/-- QueryStatistics of a GetQueryResults response; RecordsMatched is a
nullable aggregate count. -/
structure QueryStatistics where
  RecordsMatched : Option Int
deriving DecidableEq

/-- One field of a result row: nullable field name and nullable value. -/
structure ResultField where
  Field : Option String
  Value : Option String
deriving DecidableEq

/-- GetQueryResultsOutput: nullable status, nullable statistics, and the
result rows. -/
structure GetQueryResultsOutput where
  Status : Option String
  Statistics : Option QueryStatistics
  Results : List (List ResultField)
deriving DecidableEq

/-- ParsedQueryResults, the normalized result produced by parseResult. -/
structure ParsedQueryResults where
  Finished : Bool
  MatchedCount : Int
  ReturnedMessage : String
deriving DecidableEq

/-- Plugin options (logOpts): log groups, filter, thresholds, state dir,
and the return-message flag. -/
structure LogOpts where
  LogGroupNames : List String
  Filter : String
  WarningOver : Int
  CriticalOver : Int
  StateDir : String
  ReturnMessage : Bool
deriving DecidableEq

/-- Persisted cursor state (logState): the unix timestamp the query was
started at, which equals the attempted window end. -/
structure LogState where
  QueryStartedAt : Int
deriving DecidableEq

/-- Severity constants of the checkers library. -/
inductive Status where
  | OK
  | WARNING
  | CRITICAL
  | UNKNOWN
deriving DecidableEq

/-- A checker outcome: severity plus message. -/
structure Checker where
  status : Status
  message : String
deriving DecidableEq

/-- Scans one result row for the first field named earliest(@message)
that carries a value, as the inner loop of parseResult does (the break
fires only when both the name matches and the value is present). -/
def rowMessage : List ResultField → Option String
  | [] => none
  | f :: rest =>
    match f.Field, f.Value with
    | some name, some v =>
      if name = "earliest(@message)" then some v else rowMessage rest
    | _, _ => rowMessage rest

/-- Runs rowMessage over every row; each matching row overwrites
ReturnedMessage, so the last matching row wins, starting from the empty
string (the Go zero value). -/
def collectMessage (rows : List (List ResultField)) : String :=
  rows.foldl (fun acc row =>
    match rowMessage row with
    | some v => v
    | none => acc) ""

/-- Classifier parseResult: a missing response or missing status is an
error; otherwise Finished is true exactly on the three terminal
statuses, MatchedCount comes from Statistics.RecordsMatched with a
fallback of 0 when either is absent, and ReturnedMessage is collected
from the rows.  The formatted error payload of the source is abstracted
to a fixed message. -/
def parseResult : Option GetQueryResultsOutput → Except String ParsedQueryResults
  | none => Except.error "unexpected response"
  | some out =>
    match out.Status with
    | none => Except.error "unexpected response"
    | some st =>
      let finished : Bool :=
        decide (st = QueryStatusComplete ∨ st = QueryStatusFailed ∨ st = QueryStatusCancelled)
      let matched : Int :=
        match out.Statistics with
        | some stats =>
          match stats.RecordsMatched with
          | some m => m
          | none => 0
        | none => 0
      Except.ok ⟨finished, matched, collectMessage out.Results⟩

/-- Result of loadState as seen by searchLogs: the state file may be
missing (os.IsNotExist), unreadable or corrupt (any other error, for
example a JSON decode failure), or successfully decoded. -/
inductive LoadResult where
  | notExist
  | loadErr
  | ok (s : LogState)
deriving DecidableEq

/-- A planned query window in unix seconds. -/
structure Window where
  startTime : Int
  endTime : Int
deriving DecidableEq

/-- Window planning prologue of searchLogs: a load error other than
not-exist aborts with an error; a loaded state with nonzero
QueryStartedAt gives startTime = QueryStartedAt minus two minutes;
otherwise startTime stays at the zero value and the fallback
startTime = endTime minus three minutes applies; endTime is the current
timestamp. -/
def planWindow : LoadResult → Int → Except String Window
  | LoadResult.loadErr, _ => Except.error "failed to load plugin state"
  | LoadResult.notExist, now => Except.ok ⟨now - 180, now⟩
  | LoadResult.ok s, now =>
    if s.QueryStartedAt ≠ 0 then
      Except.ok ⟨s.QueryStartedAt - 120, now⟩
    else
      Except.ok ⟨now - 180, now⟩

/-- One resolution of the select inside the poll loop: the context is
done, GetQueryResults returns an error, or GetQueryResults returns a
(possibly nil) response. -/
inductive PollEvent where
  | ctxDone
  | apiError
  | response (out : Option GetQueryResultsOutput)
deriving DecidableEq

/-- How one invocation of searchLogs ends. -/
inductive SearchOutcome where
  | loadFailed
  | submitFailed
  | cancelled
  | success (res : ParsedQueryResults)
  | panicked (e : String)
  | exhausted
deriving DecidableEq

/-- Observable result of one searchLogs invocation: the outcome, the
number of saveState invocations, the last state handed to saveState,
and whether StopQuery was issued. -/
structure SearchResult where
  outcome : SearchOutcome
  saves : Nat
  savedState : Option LogState
  stopQueryCalled : Bool
deriving DecidableEq

/-- Poll loop of searchLogs over an explicit event script.  On ctx.Done
the provisional state is saved once and StopQuery is issued; a
GetQueryResults error is logged and retried; a response is classified by
parseResult, where an error from parseResult leaves the result pointer
nil and the subsequent res.Finished read is a nil dereference (modelled
as a panicked outcome); a finished result saves the provisional state
once and returns it; an unfinished result waits for the next tick. -/
def pollLoop (state : LogState) : List PollEvent → SearchResult
  | [] => ⟨SearchOutcome.exhausted, 0, none, false⟩
  | PollEvent.ctxDone :: _ => ⟨SearchOutcome.cancelled, 1, some state, true⟩
  | PollEvent.apiError :: rest => pollLoop state rest
  | PollEvent.response out :: rest =>
    match parseResult out with
    | Except.error e => ⟨SearchOutcome.panicked e, 0, none, false⟩
    | Except.ok res =>
      if res.Finished then ⟨SearchOutcome.success res, 1, some state, false⟩
      else pollLoop state rest

/-- The searchLogs control flow: plan the window from the loaded state
(aborting on a load error), compute the provisional next state from the
current timestamp before submission, abort without saving when
submission fails, and otherwise run the poll loop. -/
def searchLogs (loadRes : LoadResult) (now : Int) (submitOk : Bool)
    (events : List PollEvent) : SearchResult :=
  match planWindow loadRes now with
  | Except.error _ => ⟨SearchOutcome.loadFailed, 0, none, false⟩
  | Except.ok _ =>
    let state : LogState := ⟨now⟩
    if submitOk then pollLoop state events
    else ⟨SearchOutcome.submitFailed, 0, none, false⟩

/-- The query string submitted to the backend: the configured filter,
with the stats suffix appended when message return is requested. -/
def fullQuery (p : LogOpts) : String :=
  if p.ReturnMessage then p.Filter ++ "| stats earliest(@message)" else p.Filter

/-- StartQueryInput as built by startQuery. -/
structure StartQueryInput where
  EndTime : Int
  StartTime : Int
  LogGroupNames : List String
  QueryString : String
  Limit : Int
deriving DecidableEq

/-- The StartQueryInput constructed by startQuery from the window and
the options: the query string is fullQuery and the limit is 1. -/
def startQueryInput (p : LogOpts) (startTime endTime : Int) : StartQueryInput :=
  ⟨endTime, startTime, p.LogGroupNames, fullQuery p, 1⟩

/-- Threshold checker buildChecker: strictly-greater comparisons against
the critical then the warning threshold choose the severity and the
base message; when the severity is not OK and message return is
requested, the returned message is appended on a new line. -/
def buildChecker (p : LogOpts) (res : ParsedQueryResults) : Checker :=
  let sm : Status × String :=
    if res.MatchedCount > p.CriticalOver then
      (Status.CRITICAL, toString res.MatchedCount ++ " > " ++ toString p.CriticalOver ++ " messages")
    else if res.MatchedCount > p.WarningOver then
      (Status.WARNING, toString res.MatchedCount ++ " > " ++ toString p.WarningOver ++ " messages")
    else
      (Status.OK, toString res.MatchedCount ++ " messages")
  let msg : String :=
    if sm.1 ≠ Status.OK ∧ p.ReturnMessage = true then
      sm.2 ++ "\n" ++ res.ReturnedMessage
    else sm.2
  ⟨sm.1, msg⟩

/-- Numeric severity order used to state monotonicity: OK below WARNING
below CRITICAL. -/
def statusRank : Status → Nat
  | Status.OK => 0
  | Status.WARNING => 1
  | Status.CRITICAL => 2
  | Status.UNKNOWN => 3

/-- Helper: the poll loop invokes saveState exactly once when it exits
through cancellation or a finished result, and never otherwise. -/
theorem pollLoop_saves_eq (st : LogState) (evs : List PollEvent) :
    (pollLoop st evs).saves =
      (match (pollLoop st evs).outcome with
       | SearchOutcome.cancelled => 1
       | SearchOutcome.success _ => 1
       | _ => 0) := by
  induction evs with
  | nil => rfl
  | cons e rest ih =>
    cases e with
    | ctxDone => rfl
    | apiError => simpa [pollLoop] using ih
    | response out =>
      simp only [pollLoop]
      cases parseResult out with
      | error e => rfl
      | ok res =>
        by_cases hf : res.Finished
        · simp [hf]
        · simpa [hf] using ih

/-- Helper: the poll loop saves the provisional state (and nothing else)
exactly on the cancellation and finished exits. -/
theorem pollLoop_savedState_eq (st : LogState) (evs : List PollEvent) :
    (pollLoop st evs).savedState =
      (match (pollLoop st evs).outcome with
       | SearchOutcome.cancelled => some st
       | SearchOutcome.success _ => some st
       | _ => none) := by
  induction evs with
  | nil => rfl
  | cons e rest ih =>
    cases e with
    | ctxDone => rfl
    | apiError => simpa [pollLoop] using ih
    | response out =>
      simp only [pollLoop]
      cases parseResult out with
      | error e => rfl
      | ok res =>
        by_cases hf : res.Finished
        · simp [hf]
        · simpa [hf] using ih

/-- Claim C1: in every invocation of searchLogs, saveState is invoked
exactly once when the invocation ends in a terminal result from the
backend (including a backend-reported terminal failure, which exits
through the finished branch) or in external cancellation, and is never
invoked when query submission fails, when the state load fails, when a
malformed response stops the loop, or while the loop is still polling;
the state saved is always the provisional cursor computed from the
current timestamp before submission, independent of the query outcome. -/
theorem c1_cursor_persisted_exactly_once (loadRes : LoadResult) (now : Int)
    (submitOk : Bool) (events : List PollEvent) :
    (searchLogs loadRes now submitOk events).saves =
      (match (searchLogs loadRes now submitOk events).outcome with
       | SearchOutcome.cancelled => 1
       | SearchOutcome.success _ => 1
       | _ => 0) ∧
    (searchLogs loadRes now submitOk events).savedState =
      (match (searchLogs loadRes now submitOk events).outcome with
       | SearchOutcome.cancelled => some ⟨now⟩
       | SearchOutcome.success _ => some ⟨now⟩
       | _ => none) := by
  unfold searchLogs
  cases h : planWindow loadRes now with
  | error e => exact ⟨rfl, rfl⟩
  | ok w =>
    cases submitOk with
    | false => exact ⟨rfl, rfl⟩
    | true =>
      simp only [if_true]
      exact ⟨pollLoop_saves_eq _ _, pollLoop_savedState_eq _ _⟩

/-- Claim C2 counterexample: with a fresh prior cursor recording 1000
and a new window ending at 1000, the planned start is 880 = 1000 minus
the fixed two-minute overlap, not 1000; the window start never equals
the prior recorded end exactly. -/
theorem c2_counterexample :
    planWindow (LoadResult.ok ⟨1000⟩) 1000 = Except.ok ⟨880, 1000⟩ ∧
      (880 : Int) ≠ 1000 := by
  constructor
  · rfl
  · decide

/-- Claim C2 amended: for every prior cursor with a nonzero recorded
timestamp T, the planned window start equals T minus 120 seconds (a
fixed two-minute overlap behind the prior recorded end), and the window
end is the current timestamp. -/
theorem c2_amended_window_overlap (T now : Int) (h : T ≠ 0) :
    planWindow (LoadResult.ok ⟨T⟩) now = Except.ok ⟨T - 120, now⟩ := by
  simp [planWindow, h]

/-- Witness for the amended C2 theorem at T = 1000, now = 1120. -/
theorem c2_amended_window_overlap_witness :
    planWindow (LoadResult.ok ⟨1000⟩) 1120 = Except.ok ⟨880, 1120⟩ :=
  c2_amended_window_overlap 1000 1120 (by decide)

/-- Claim C3 counterexample: a prior cursor recording 600, stale by any
reading against a new window end of 1000000, is still used: the planned
start is 600 - 120 = 480, not the fallback 1000000 - 180 = 999820; the
stale cursor is not discarded. -/
theorem c3_counterexample :
    planWindow (LoadResult.ok ⟨600⟩) 1000000 = Except.ok ⟨480, 1000000⟩ ∧
      (480 : Int) ≠ 1000000 - 180 := by
  constructor
  · rfl
  · decide

/-- Claim C3 amended: there is no staleness horizon: every prior cursor
with a nonzero recorded timestamp T is used regardless of its age,
giving start = T - 120; the fallback start = end - 180 seconds (the
fixed three-minute minimum window) is used exactly when no prior cursor
exists or its recorded timestamp is zero. -/
theorem c3_amended_no_staleness (T now : Int) :
    (T ≠ 0 → planWindow (LoadResult.ok ⟨T⟩) now = Except.ok ⟨T - 120, now⟩) ∧
      planWindow (LoadResult.ok ⟨0⟩) now = Except.ok ⟨now - 180, now⟩ ∧
      planWindow LoadResult.notExist now = Except.ok ⟨now - 180, now⟩ := by
  refine ⟨fun h => ?_, ?_, ?_⟩
  · simp [planWindow, h]
  · simp [planWindow]
  · rfl

/-- Witness for the amended C3 theorem at T = 600, now = 1000000. -/
theorem c3_amended_no_staleness_witness :
    planWindow (LoadResult.ok ⟨600⟩) 1000000 = Except.ok ⟨480, 1000000⟩ ∧
      planWindow LoadResult.notExist 1000000 = Except.ok ⟨999820, 1000000⟩ :=
  ⟨(c3_amended_no_staleness 600 1000000).1 (by decide),
   (c3_amended_no_staleness 600 1000000).2.2⟩

/-- Claim C4: for every poll response whose status field is present,
parseResult succeeds with a result whose Finished flag is true exactly
for the Complete, Failed and Cancelled statuses (hence false for
Scheduled and Running), and whose MatchedCount equals the reported
RecordsMatched statistic, falling back to 0 when the statistics block or
the statistic itself is absent. -/
theorem c4_classifier_terminal_and_count (out : GetQueryResultsOutput)
    (s : String) (hs : out.Status = some s) :
    ∃ res, parseResult (some out) = Except.ok res ∧
      (res.Finished = true ↔
        (s = QueryStatusComplete ∨ s = QueryStatusFailed ∨ s = QueryStatusCancelled)) ∧
      ((s = QueryStatusScheduled ∨ s = QueryStatusRunning) → res.Finished = false) ∧
      (∀ stats m, out.Statistics = some stats → stats.RecordsMatched = some m →
        res.MatchedCount = m) ∧
      (∀ stats, out.Statistics = some stats → stats.RecordsMatched = none →
        res.MatchedCount = 0) ∧
      (out.Statistics = none → res.MatchedCount = 0) := by
  obtain ⟨st0, stats0, rows0⟩ := out
  obtain rfl : st0 = some s := hs
  refine ⟨_, rfl, ?_, ?_, ?_, ?_, ?_⟩
  · simp
  · rintro (rfl | rfl) <;> rfl
  · intro stats m h1 h2
    simp only [] at h1
    subst h1
    simp [h2]
  · intro stats h1 h2
    simp only [] at h1
    subst h1
    simp [h2]
  · intro h1
    simp only [] at h1
    subst h1
    rfl

/-- Witness for the C4 theorem at a Complete response carrying
RecordsMatched 6. -/
theorem c4_classifier_terminal_and_count_witness :
    ∃ res, parseResult (some ⟨some QueryStatusComplete, some ⟨some 6⟩, []⟩) =
        Except.ok res ∧
      (res.Finished = true ↔
        (QueryStatusComplete = QueryStatusComplete ∨
          QueryStatusComplete = QueryStatusFailed ∨
          QueryStatusComplete = QueryStatusCancelled)) ∧
      ((QueryStatusComplete = QueryStatusScheduled ∨
          QueryStatusComplete = QueryStatusRunning) → res.Finished = false) ∧
      (∀ stats m,
        (⟨some QueryStatusComplete, some ⟨some 6⟩, []⟩ :
            GetQueryResultsOutput).Statistics = some stats →
        stats.RecordsMatched = some m → res.MatchedCount = m) ∧
      (∀ stats,
        (⟨some QueryStatusComplete, some ⟨some 6⟩, []⟩ :
            GetQueryResultsOutput).Statistics = some stats →
        stats.RecordsMatched = none → res.MatchedCount = 0) ∧
      ((⟨some QueryStatusComplete, some ⟨some 6⟩, []⟩ :
          GetQueryResultsOutput).Statistics = none → res.MatchedCount = 0) :=
  c4_classifier_terminal_and_count ⟨some QueryStatusComplete, some ⟨some 6⟩, []⟩
    QueryStatusComplete rfl

/-- Claim C5 counterexample: on a backend-terminal Failed response,
searchLogs returns a successful ParsedQueryResults (Finished true, no
error, and no failure reason exists in the result type) instead of an
error, while the cursor is saved once. -/
theorem c5_counterexample :
    searchLogs LoadResult.notExist 1000 true
        [PollEvent.response (some ⟨some QueryStatusFailed, some ⟨none⟩, []⟩)] =
      ⟨SearchOutcome.success ⟨true, 0, ""⟩, 1, some ⟨1000⟩, false⟩ := by
  rfl

/-- Claim C5 amended: on a backend-terminal Failed or Cancelled status,
parseResult reports a finished result with no error, searchLogs returns
that result as a success (no error and no failure reason is produced),
and the cursor is still persisted exactly once with the attempted
window end, the current timestamp. -/
theorem c5_amended_terminal_failure_is_success (now : Int)
    (stats : Option QueryStatistics) (rows : List (List ResultField))
    (st : String) (h : st = QueryStatusFailed ∨ st = QueryStatusCancelled) :
    ∃ res, parseResult (some ⟨some st, stats, rows⟩) = Except.ok res ∧
      res.Finished = true ∧
      searchLogs LoadResult.notExist now true
          [PollEvent.response (some ⟨some st, stats, rows⟩)] =
        ⟨SearchOutcome.success res, 1, some ⟨now⟩, false⟩ := by
  rcases h with rfl | rfl <;> exact ⟨_, rfl, rfl, rfl⟩

/-- Witness for the amended C5 theorem at a Failed response with empty
statistics and now = 0. -/
theorem c5_amended_terminal_failure_is_success_witness :
    ∃ res, parseResult (some ⟨some QueryStatusFailed, some ⟨none⟩, []⟩) =
        Except.ok res ∧
      res.Finished = true ∧
      searchLogs LoadResult.notExist 0 true
          [PollEvent.response (some ⟨some QueryStatusFailed, some ⟨none⟩, []⟩)] =
        ⟨SearchOutcome.success res, 1, some ⟨0⟩, false⟩ :=
  c5_amended_terminal_failure_is_success 0 (some ⟨none⟩) [] QueryStatusFailed
    (Or.inl rfl)

/-- Claim C6 counterexample: an unrecognized status string does not make
parseResult fail: the response with status BOGUS parses to a successful
non-terminal result, never to an error. -/
theorem c6_counterexample :
    parseResult (some ⟨some "BOGUS", none, []⟩) = Except.ok ⟨false, 0, ""⟩ ∧
      ∀ e, parseResult (some ⟨some "BOGUS", none, []⟩) ≠ Except.error e := by
  refine ⟨rfl, ?_⟩
  intro e h
  simp [parseResult] at h

/-- Claim C6 amended: parseResult fails with an error exactly when the
response itself or its top-level status field is missing; an
unrecognized status string instead yields a non-error, non-terminal
result, which the poll loop treats as not finished and retries on the
next tick; on a missing-status error the loop does not retry, because
the nil result is dereferenced (a panic). -/
theorem c6_amended_malformed_response :
    (∀ out, (∃ e, parseResult out = Except.error e) ↔
      (out = none ∨ ∃ o, out = some o ∧ o.Status = none)) ∧
    (∀ (o : GetQueryResultsOutput) (s : String) (st : LogState)
        (evs : List PollEvent), o.Status = some s →
      s ≠ QueryStatusComplete → s ≠ QueryStatusFailed → s ≠ QueryStatusCancelled →
      pollLoop st (PollEvent.response (some o) :: evs) = pollLoop st evs) ∧
    (∀ (o : GetQueryResultsOutput) (st : LogState) (evs : List PollEvent),
      o.Status = none →
      ∃ e, pollLoop st (PollEvent.response (some o) :: evs) =
        ⟨SearchOutcome.panicked e, 0, none, false⟩) := by
  refine ⟨?_, ?_, ?_⟩
  · intro out
    cases out with
    | none => simp [parseResult]
    | some o =>
      cases ho : o.Status with
      | none => simp [parseResult, ho]
      | some s => simp [parseResult, ho]
  · intro o s st evs h h1 h2 h3
    have hdec : decide (s = QueryStatusComplete ∨ s = QueryStatusFailed ∨
        s = QueryStatusCancelled) = false := by
      simp [h1, h2, h3]
    simp [pollLoop, parseResult, h, hdec]
  · intro o st evs h
    exact ⟨"unexpected response", by simp [pollLoop, parseResult, h]⟩

/-- Witness for the amended C6 theorem: a missing response errors, a
Running response makes the loop fall through to the remaining events,
and a missing-status response ends the loop in a panic. -/
theorem c6_amended_malformed_response_witness :
    (∃ e, parseResult none = Except.error e) ∧
      pollLoop ⟨5⟩ [PollEvent.response (some ⟨some QueryStatusRunning, none, []⟩),
          PollEvent.ctxDone] =
        pollLoop ⟨5⟩ [PollEvent.ctxDone] ∧
      ∃ e, pollLoop ⟨5⟩ [PollEvent.response (some ⟨none, none, []⟩)] =
        ⟨SearchOutcome.panicked e, 0, none, false⟩ :=
  ⟨(c6_amended_malformed_response.1 none).mpr (Or.inl rfl),
   c6_amended_malformed_response.2.1 ⟨some QueryStatusRunning, none, []⟩
     QueryStatusRunning ⟨5⟩ [PollEvent.ctxDone] rfl (by decide) (by decide)
     (by decide),
   c6_amended_malformed_response.2.2 ⟨none, none, []⟩ ⟨5⟩ [] rfl⟩

/-- Claim C7: with message return disabled, buildChecker returns
CRITICAL with message count-gt-critical when the matched count strictly
exceeds the critical threshold, otherwise WARNING with
count-gt-warning when it strictly exceeds the warning threshold,
otherwise OK with the plain count message; equality to a threshold
falls on the non-triggering side because the comparisons are strict. -/
theorem c7_threshold_evaluation (p : LogOpts) (res : ParsedQueryResults)
    (hr : p.ReturnMessage = false) :
    (res.MatchedCount > p.CriticalOver →
      buildChecker p res = ⟨Status.CRITICAL,
        toString res.MatchedCount ++ " > " ++ toString p.CriticalOver ++ " messages"⟩) ∧
    (res.MatchedCount ≤ p.CriticalOver → res.MatchedCount > p.WarningOver →
      buildChecker p res = ⟨Status.WARNING,
        toString res.MatchedCount ++ " > " ++ toString p.WarningOver ++ " messages"⟩) ∧
    (res.MatchedCount ≤ p.CriticalOver → res.MatchedCount ≤ p.WarningOver →
      buildChecker p res = ⟨Status.OK,
        toString res.MatchedCount ++ " messages"⟩) := by
  refine ⟨?_, ?_, ?_⟩
  · intro h
    simp [buildChecker, h, hr]
  · intro h1 h2
    simp [buildChecker, not_lt.mpr h1, h2, hr]
  · intro h1 h2
    simp [buildChecker, not_lt.mpr h1, not_lt.mpr h2, hr]

/-- Witness for the C7 theorem at thresholds warning 2 and critical 4:
count 5 is CRITICAL with message 5-gt-4, and count 2 is OK. -/
theorem c7_threshold_evaluation_witness :
    buildChecker ⟨[], "", 2, 4, "", false⟩ ⟨true, 5, ""⟩ =
        ⟨Status.CRITICAL, "5 > 4 messages"⟩ ∧
      buildChecker ⟨[], "", 2, 4, "", false⟩ ⟨true, 2, ""⟩ =
        ⟨Status.OK, "2 messages"⟩ :=
  ⟨(c7_threshold_evaluation ⟨[], "", 2, 4, "", false⟩ ⟨true, 5, ""⟩ rfl).1
      (by decide),
   (c7_threshold_evaluation ⟨[], "", 2, 4, "", false⟩ ⟨true, 2, ""⟩ rfl).2.2
      (by decide) (by decide)⟩

/-- Claim C8: for thresholds with warning strictly below critical, the
severity buildChecker assigns is monotone in the matched count under
the order OK below WARNING below CRITICAL. -/
theorem c8_threshold_monotone (p : LogOpts) (r1 r2 : ParsedQueryResults)
    (hwc : p.WarningOver < p.CriticalOver)
    (hm : r1.MatchedCount ≤ r2.MatchedCount) :
    statusRank (buildChecker p r1).status ≤ statusRank (buildChecker p r2).status := by
  simp only [buildChecker]
  split_ifs <;> simp [statusRank] <;> omega

/-- Witness for the C8 theorem at warning 2, critical 4, counts 3 and
5. -/
theorem c8_threshold_monotone_witness :
    statusRank (buildChecker ⟨[], "", 2, 4, "", false⟩ ⟨true, 3, ""⟩).status ≤
      statusRank (buildChecker ⟨[], "", 2, 4, "", false⟩ ⟨true, 5, ""⟩).status :=
  c8_threshold_monotone ⟨[], "", 2, 4, "", false⟩ ⟨true, 3, ""⟩ ⟨true, 5, ""⟩
    (by decide) (by decide)

/-- Claim C9 counterexample: a cursor store whose content cannot be
loaded (for example corrupt JSON, anything other than a missing file)
does not plan a window at all: planWindow fails and searchLogs aborts
with an error before submitting anything, instead of treating the
corrupt cursor as absent. -/
theorem c9_counterexample :
    (∃ e, planWindow LoadResult.loadErr 1000 = Except.error e) ∧
      searchLogs LoadResult.loadErr 1000 true [PollEvent.ctxDone] =
        ⟨SearchOutcome.loadFailed, 0, none, false⟩ :=
  ⟨⟨"failed to load plugin state", rfl⟩, rfl⟩

/-- Claim C9 amended: only a missing state file is treated as an absent
cursor, in which case planning always yields the fallback window ending
at the current timestamp; every other cursor-load failure (including
corrupt cursor data) is surfaced as an error and searchLogs aborts
without saving state or submitting a query. -/
theorem c9_amended_corrupt_cursor_aborts (now : Int) (submitOk : Bool)
    (events : List PollEvent) :
    planWindow LoadResult.notExist now = Except.ok ⟨now - 180, now⟩ ∧
      (∃ e, planWindow LoadResult.loadErr now = Except.error e) ∧
      searchLogs LoadResult.loadErr now submitOk events =
        ⟨SearchOutcome.loadFailed, 0, none, false⟩ :=
  ⟨rfl, ⟨"failed to load plugin state", rfl⟩, rfl⟩

/-- Claim C10: the query string submitted by startQuery is exactly
fullQuery, which is the configured filter expression unchanged when
message return is disabled and the filter with the stats-earliest
suffix appended when it is enabled. -/
theorem c10_query_string (p : LogOpts) (startTime endTime : Int) :
    (startQueryInput p startTime endTime).QueryString = fullQuery p ∧
      fullQuery p =
        (if p.ReturnMessage then p.Filter ++ "| stats earliest(@message)"
         else p.Filter) :=
  ⟨rfl, rfl⟩
